import Mathlib

/-!
Verification of the Aquaballance bot core (src/main.py) against its
natural-language specification.

Python floating-point arithmetic is modelled by exact real arithmetic (ℝ);
division is total in the model (x / 0 = 0).  Values that are only compared
or stored (measurements, guide bounds, parsed command arguments) are
modelled over ℚ so that the definitions are executable.
-/

namespace Aquaballance

/- ==================== Definitions ==================== -/

/- ----- ChemistryEngine (src/main.py lines 141-157) ----- -/

/-- Fraction of TAN present as NH3, Emerson et al. (1975), freshwater.
Mirrors nh3_fraction in src/main.py: pKa = 0.09018 + 2729.92 / (273.15 + T),
frac = 1 / (1 + 10 ^ (pKa - pH)), result clamped to the unit interval. -/
noncomputable def nh3_fraction (pH temp_c : ℝ) : ℝ :=
  let t_k : ℝ := 273.15 + temp_c
  let pKa : ℝ := 0.09018 + 2729.92 / t_k
  let frac : ℝ := 1 / (1 + (10 : ℝ) ^ (pKa - pH))
  max 0 (min 1 frac)

/-- Mirrors split_tan_to_nh3_nh4 in src/main.py: tan is clamped to 0 from
below, nh3 = tan * frac, nh4 = tan - nh3.  This is the value-level model;
the failure modes of the Python arithmetic are carried by
split_tan_to_nh3_nh4_run below. -/
noncomputable def split_tan_to_nh3_nh4 (tan pH temp_c : ℝ) : ℝ × ℝ :=
  let tan' := max 0 tan
  let nh3 := tan' * nh3_fraction pH temp_c
  let nh4 := tan' - nh3
  (nh3, nh4)

/-- The exceptions the Python evaluation of nh3_fraction can raise:
ZeroDivisionError from 2729.92 / t_k, OverflowError from
pow(10.0, pKa - pH). -/
inductive PyErr where
  | zeroDivision
  | overflow
deriving DecidableEq

/-- The largest finite IEEE-754 double, (2 - 2^-52) * 2^1023, exactly. -/
noncomputable def maxDouble : ℝ := (2 ^ 53 - 1) * 2 ^ 971

/-- Mirrors nh3_fraction together with the failure modes of its Python
evaluation: ZeroDivisionError when 273.15 + temp_c is zero, and
OverflowError when the power 10 ^ (pKa - pH) exceeds the largest finite
double (the rounding of the exact value at the boundary is idealized; the
remaining operations — the addition 1 + x for x within double range and the
division by a denominator at least 1 — cannot overflow or divide by zero).
On the non-error path the result is the value of nh3_fraction. -/
noncomputable def nh3_fraction_run (pH temp_c : ℝ) : Except PyErr ℝ :=
  let t_k : ℝ := 273.15 + temp_c
  if t_k = 0 then Except.error PyErr.zeroDivision
  else
    let pKa : ℝ := 0.09018 + 2729.92 / t_k
    if maxDouble < (10 : ℝ) ^ (pKa - pH) then Except.error PyErr.overflow
    else
      let frac : ℝ := 1 / (1 + (10 : ℝ) ^ (pKa - pH))
      Except.ok (max 0 (min 1 frac))

/-- Mirrors split_tan_to_nh3_nh4 with the failure modes of its call to
nh3_fraction propagated (the remaining multiplication and subtraction of a
clamped product cannot fail). -/
noncomputable def split_tan_to_nh3_nh4_run (tan pH temp_c : ℝ) :
    Except PyErr (ℝ × ℝ) :=
  let tan' := max 0 tan
  match nh3_fraction_run pH temp_c with
  | Except.error e => Except.error e
  | Except.ok frac => Except.ok (tan' * frac, tan' - tan' * frac)

/- ----- CompatibilityEngine (src/main.py lines 160-211) ----- -/

/-- Model of Python str.lower for the alphabets that occur in the species
guides: ASCII letters and the Russian Cyrillic block (А..Я and Ё).
Other characters are left unchanged. -/
def pyLowerChar (c : Char) : Char :=
  if 'A' ≤ c ∧ c ≤ 'Z' then Char.ofNat (c.toNat + 32)
  else if 0x410 ≤ c.toNat ∧ c.toNat ≤ 0x42F then Char.ofNat (c.toNat + 0x20)
  else if c.toNat = 0x401 then Char.ofNat 0x451
  else c

def pyLower (s : String) : String := String.mk (s.toList.map pyLowerChar)

/-- The last measurement as consumed by the compatibility checks
(get_last_meas in src/main.py returns these keys, every one optional). -/
structure Meas where
  ph : Option ℚ := none
  gh : Option ℚ := none
  temperature_c : Option ℚ := none
  no2 : Option ℚ := none
  no3 : Option ℚ := none
  tan : Option ℚ := none
  nh3 : Option ℚ := none
  nh4 : Option ℚ := none
  po4 : Option ℚ := none

/-- An empty measurement dictionary (add_fish/add_plant use {} when the
aquarium has no measurement yet). -/
def emptyMeas : Meas := {}

/-- Fish tolerance tuple (pH_min, pH_max, GH_min, GH_max, T_min, T_max,
NO2_max, NH3_max) from the FISH_GUIDE comment in src/main.py. -/
structure FishSpec where
  pH_min : ℚ
  pH_max : ℚ
  GH_min : ℚ
  GH_max : ℚ
  T_min : ℚ
  T_max : ℚ
  NO2_max : ℚ
  NH3_max : ℚ
deriving DecidableEq

/-- Plant tolerance tuple (pH_min, pH_max, GH_min, GH_max, T_min, T_max,
NO3_min, NO3_max, PO4_min, PO4_max) from the PLANT_GUIDE comment. -/
structure PlantSpec where
  pH_min : ℚ
  pH_max : ℚ
  GH_min : ℚ
  GH_max : ℚ
  T_min : ℚ
  T_max : ℚ
  NO3_min : ℚ
  NO3_max : ℚ
  PO4_min : ℚ
  PO4_max : ℚ
deriving DecidableEq

def FISH_GUIDE : List (String × FishSpec) :=
  [("гуппи", ⟨6.8, 8.2, 6, 18, 22, 28, 0.1, 0.02⟩),
   ("неон", ⟨5.0, 7.2, 1, 10, 22, 26, 0.05, 0.01⟩),
   ("скалярия", ⟨6.0, 7.5, 3, 12, 24, 30, 0.1, 0.02⟩),
   ("золотая рыбка", ⟨6.5, 8.0, 5, 20, 18, 24, 0.1, 0.02⟩)]

def PLANT_GUIDE : List (String × PlantSpec) :=
  [("анубиас", ⟨6.0, 8.0, 3, 15, 22, 28, 5, 30, 0.2, 2.0⟩),
   ("роголистник", ⟨6.0, 8.0, 3, 18, 18, 28, 1, 20, 0.1, 1.5⟩),
   ("элодея", ⟨6.5, 8.0, 4, 18, 18, 28, 1, 20, 0.1, 1.5⟩)]

/-- The advisory messages produced by the compatibility checks.  Each
constructor is an injective rendering of one of the Russian format strings
in src/main.py, carrying the violated bounds (string formatting of the
numbers is a presentation detail abstracted here). -/
inductive Problem where
  | unverified (species : String)
  | phOut (lo hi : ℚ)
  | ghOut (lo hi : ℚ)
  | tempOut (lo hi : ℚ)
  | no2High (hi : ℚ)
  | nh3High (hi : ℚ)
  | no3Out (lo hi : ℚ)
  | po4Out (lo hi : ℚ)
deriving DecidableEq

/-- Mirrors check_fish_compat in src/main.py: dictionary lookup of the
lowercased species name; unknown species are accepted with one advisory
message; otherwise problems are appended one dimension at a time. -/
def check_fish_compat (meas : Meas) (species : String) : Bool × List Problem :=
  match FISH_GUIDE.lookup (pyLower species) with
  | none => (true, [Problem.unverified species])
  | some sp =>
    let probs : List Problem := []
    let probs := match meas.ph with
      | some ph => if ph < sp.pH_min ∨ sp.pH_max < ph then
          probs ++ [Problem.phOut sp.pH_min sp.pH_max] else probs
      | none => probs
    let probs := match meas.gh with
      | some gh => if gh < sp.GH_min ∨ sp.GH_max < gh then
          probs ++ [Problem.ghOut sp.GH_min sp.GH_max] else probs
      | none => probs
    let probs := match meas.temperature_c with
      | some t => if t < sp.T_min ∨ sp.T_max < t then
          probs ++ [Problem.tempOut sp.T_min sp.T_max] else probs
      | none => probs
    let probs := match meas.no2 with
      | some no2 => if sp.NO2_max < no2 then
          probs ++ [Problem.no2High sp.NO2_max] else probs
      | none => probs
    let probs := match meas.nh3 with
      | some nh3 => if sp.NH3_max < nh3 then
          probs ++ [Problem.nh3High sp.NH3_max] else probs
      | none => probs
    (probs.isEmpty, probs)

/-- Mirrors check_plant_compat in src/main.py. -/
def check_plant_compat (meas : Meas) (species : String) : Bool × List Problem :=
  match PLANT_GUIDE.lookup (pyLower species) with
  | none => (true, [Problem.unverified species])
  | some sp =>
    let probs : List Problem := []
    let probs := match meas.ph with
      | some ph => if ph < sp.pH_min ∨ sp.pH_max < ph then
          probs ++ [Problem.phOut sp.pH_min sp.pH_max] else probs
      | none => probs
    let probs := match meas.gh with
      | some gh => if gh < sp.GH_min ∨ sp.GH_max < gh then
          probs ++ [Problem.ghOut sp.GH_min sp.GH_max] else probs
      | none => probs
    let probs := match meas.temperature_c with
      | some t => if t < sp.T_min ∨ sp.T_max < t then
          probs ++ [Problem.tempOut sp.T_min sp.T_max] else probs
      | none => probs
    let probs := match meas.no3 with
      | some no3 => if no3 < sp.NO3_min ∨ sp.NO3_max < no3 then
          probs ++ [Problem.no3Out sp.NO3_min sp.NO3_max] else probs
      | none => probs
    let probs := match meas.po4 with
      | some po4 => if po4 < sp.PO4_min ∨ sp.PO4_max < po4 then
          probs ++ [Problem.po4Out sp.PO4_min sp.PO4_max] else probs
      | none => probs
    (probs.isEmpty, probs)

/-- Specification-side view of one inclusive-range dimension: no message
when the field is missing, exactly one message when the value lies outside
the closed range, nothing otherwise. -/
def rangeDim (x? : Option ℚ) (lo hi : ℚ) (m : Problem) : List Problem :=
  match x? with
  | some x => if x < lo ∨ hi < x then [m] else []
  | none => []

/-- Specification-side view of one ceiling dimension. -/
def ceilDim (x? : Option ℚ) (hi : ℚ) (m : Problem) : List Problem :=
  match x? with
  | some x => if hi < x then [m] else []
  | none => []

/-- The five fish dimensions evaluated independently and concatenated. -/
def fishProblems (meas : Meas) (sp : FishSpec) : List Problem :=
  rangeDim meas.ph sp.pH_min sp.pH_max (Problem.phOut sp.pH_min sp.pH_max) ++
  rangeDim meas.gh sp.GH_min sp.GH_max (Problem.ghOut sp.GH_min sp.GH_max) ++
  rangeDim meas.temperature_c sp.T_min sp.T_max (Problem.tempOut sp.T_min sp.T_max) ++
  ceilDim meas.no2 sp.NO2_max (Problem.no2High sp.NO2_max) ++
  ceilDim meas.nh3 sp.NH3_max (Problem.nh3High sp.NH3_max)

/-- The five plant dimensions evaluated independently and concatenated. -/
def plantProblems (meas : Meas) (sp : PlantSpec) : List Problem :=
  rangeDim meas.ph sp.pH_min sp.pH_max (Problem.phOut sp.pH_min sp.pH_max) ++
  rangeDim meas.gh sp.GH_min sp.GH_max (Problem.ghOut sp.GH_min sp.GH_max) ++
  rangeDim meas.temperature_c sp.T_min sp.T_max (Problem.tempOut sp.T_min sp.T_max) ++
  rangeDim meas.no3 sp.NO3_min sp.NO3_max (Problem.no3Out sp.NO3_min sp.NO3_max) ++
  rangeDim meas.po4 sp.PO4_min sp.PO4_max (Problem.po4Out sp.PO4_min sp.PO4_max)

/- ----- Command argument parsing (src/main.py lines 262-278) ----- -/

/-- The whitespace characters recognised by Python str.split and str.strip
(ASCII subset; the bot's inputs are covered by these). -/
def isPySpace (c : Char) : Bool :=
  c = ' ' || c = '\t' || c = '\n' || c = '\r' || c = '\x0b' || c = '\x0c'

/-- Model of Python str.strip with no argument. -/
def pyStrip (s : String) : String :=
  String.mk (((s.toList.dropWhile isPySpace).reverse.dropWhile isPySpace).reverse)

/-- The natural number denoted by a run of decimal digit characters. -/
def natOfDigits (ds : List Char) : ℕ :=
  ds.foldl (fun n c => 10 * n + (c.toNat - 48)) 0

/-- Optional exponent suffix of a Python float literal: either nothing is
left, or e/E followed by an optional sign and a non-empty digit run. -/
def pyExpPart (m : ℚ) : List Char → Option ℚ
  | [] => some m
  | c :: r =>
    if c = 'e' || c = 'E' then
      let signed : Bool × List Char :=
        match r with
        | '+' :: r2 => (false, r2)
        | '-' :: r2 => (true, r2)
        | _ => (false, r)
      let ds := signed.2.takeWhile Char.isDigit
      if ds.isEmpty || !(signed.2.dropWhile Char.isDigit).isEmpty then none
      else
        some (m * (10 : ℚ) ^
          (if signed.1 then -(natOfDigits ds : ℤ) else (natOfDigits ds : ℤ)))
    else none

/-- Unsigned part of a Python float literal: digits, optionally a point and
further digits (at least one digit overall), then an optional exponent. -/
def pyFloatUnsigned (cs : List Char) : Option ℚ :=
  let ip := cs.takeWhile Char.isDigit
  let r1 := cs.dropWhile Char.isDigit
  match r1 with
  | '.' :: r2 =>
    let fp := r2.takeWhile Char.isDigit
    let r3 := r2.dropWhile Char.isDigit
    if ip.isEmpty && fp.isEmpty then none
    else pyExpPart ((natOfDigits ip : ℚ) + (natOfDigits fp : ℚ) / 10 ^ fp.length) r3
  | _ => if ip.isEmpty then none else pyExpPart (natOfDigits ip : ℚ) r1

/-- Model of the Python float(str) constructor restricted to finite decimal
and scientific literals (the forms the bot receives); surrounding
whitespace and a leading sign are accepted, anything unparseable is none
(modelling the raised ValueError that parse_kv_args swallows). -/
def pyFloat? (s : String) : Option ℚ :=
  match (pyStrip s).toList with
  | '+' :: rest => pyFloatUnsigned rest
  | '-' :: rest => (pyFloatUnsigned rest).map (fun q => -q)
  | cs => pyFloatUnsigned cs

/-- Model of the Python int(str) constructor on decimal literals:
surrounding whitespace, an optional sign, and a non-empty digit run. -/
def pyInt? (s : String) : Option ℤ :=
  let cs := (pyStrip s).toList
  let signed : Bool × List Char :=
    match cs with
    | '+' :: r => (false, r)
    | '-' :: r => (true, r)
    | _ => (false, cs)
  let ds := signed.2.takeWhile Char.isDigit
  if ds.isEmpty || !(signed.2.dropWhile Char.isDigit).isEmpty then none
  else some (if signed.1 then -(natOfDigits ds : ℤ) else (natOfDigits ds : ℤ))

/-- Helper for pyChunks: walk the characters, accumulating the current
word reversed; whitespace flushes the word. -/
def pyChunksAux : List Char → List Char → List String
  | [], acc => if acc.isEmpty then [] else [String.mk acc.reverse]
  | c :: cs, acc =>
    if isPySpace c then
      if acc.isEmpty then pyChunksAux cs []
      else String.mk acc.reverse :: pyChunksAux cs []
    else pyChunksAux cs (c :: acc)

/-- Whitespace-separated chunks of a string, Python str.split() with no
argument (runs of whitespace separate, empty chunks do not occur). -/
def pyChunks (s : String) : List String :=
  pyChunksAux s.toList []

/-- Split a chunk at its first equals sign, Python chunk.split with
separator and maxsplit 1; none when the chunk has no equals sign. -/
def breakAtEq : List Char → Option (List Char × List Char)
  | [] => none
  | c :: cs =>
    if c = '=' then some ([], cs)
    else match breakAtEq cs with
      | none => none
      | some kv => some (c :: kv.1, kv.2)

/-- One loop iteration of parse_kv_args: a chunk contributes a (key, value)
pair exactly when it contains an equals sign and its value part, stripped
and with commas replaced by points, parses as a float; the key is stripped
and lowercased. -/
def parseChunk (chunk : String) : Option (String × ℚ) :=
  match breakAtEq chunk.toList with
  | none => none
  | some kv =>
    let key := pyLower (pyStrip (String.mk kv.1))
    let vs := String.mk
      ((pyStrip (String.mk kv.2)).toList.map (fun c => if c = ',' then '.' else c))
    match pyFloat? vs with
    | none => none
    | some q => some (key, q)

/-- Dictionary update: later assignments to the same key overwrite. -/
def kvUpdate (f : String → Option ℚ) (k : String) (q : ℚ) : String → Option ℚ :=
  fun key => if key = k then some q else f key

/-- The body of the parse_kv_args loop over one chunk. -/
def kvStep (acc : String → Option ℚ) (chunk : String) : String → Option ℚ :=
  match parseChunk chunk with
  | none => acc
  | some kq => kvUpdate acc kq.1 kq.2

/-- Mirrors parse_kv_args in src/main.py: fold the chunk rule over the
whitespace-separated chunks of the input, starting from the empty
dictionary.  Total by construction: malformed chunks are skipped. -/
def parse_kv_args (s : String) : String → Option ℚ :=
  (pyChunks s).foldl kvStep (fun _ => none)

/- ----- add_measure (src/main.py lines 358-386) ----- -/

/-- Model of the Python expression a or b on optional floats: None and 0.0
are falsy, so the left operand is kept only when present and nonzero. -/
def pyOr (a b : Option ℚ) : Option ℚ :=
  match a with
  | some x => if x = 0 then b else some x
  | none => b

/-- The measurement row inserted by add_measure: raw fields as parsed, and
the two derived fields. -/
structure MeasureRow where
  ph : Option ℚ
  kh : Option ℚ
  gh : Option ℚ
  no2 : Option ℚ
  no3 : Option ℚ
  tan : Option ℚ
  po4 : Option ℚ
  temperature_c : Option ℚ
  nh3 : Option ℝ
  nh4 : Option ℝ

/-- Mirrors the pure core of add_measure in src/main.py: fields are read
from the parsed dictionary, temperature is the Python or-chain over the
keys t, temp, temperature, temperature_c, and nh3/nh4 are computed only
when tan, ph and the or-chain result are all non-None. -/
noncomputable def add_measure_core (kv : String → Option ℚ) : MeasureRow :=
  let ph := kv "ph"
  let kh := kv "kh"
  let gh := kv "gh"
  let no2 := kv "no2"
  let no3 := kv "no3"
  let tan := kv "tan"
  let po4 := kv "po4"
  let t := pyOr (kv "t") (pyOr (kv "temp") (pyOr (kv "temperature") (kv "temperature_c")))
  match tan, ph, t with
  | some tanv, some phv, some tv =>
    let p := split_tan_to_nh3_nh4 (tanv : ℝ) (phv : ℝ) (tv : ℝ)
    { ph := ph, kh := kh, gh := gh, no2 := no2, no3 := no3, tan := tan, po4 := po4,
      temperature_c := t, nh3 := some p.1, nh4 := some p.2 }
  | _, _, _ =>
    { ph := ph, kh := kh, gh := gh, no2 := no2, no3 := no3, tan := tan, po4 := po4,
      temperature_c := t, nh3 := none, nh4 := none }

/- ----- add_fish / add_plant handlers (src/main.py lines 423-478) ----- -/

/-- Model of Python text.split(maxsplit=n): at most n splits on whitespace
runs; once the splits are used up the remainder (leading whitespace
stripped) is the final element. -/
def pySplitMaxGo (n : ℕ) (cs : List Char) : List String :=
  match n, cs.dropWhile isPySpace with
  | _, [] => []
  | 0, rest => [String.mk rest]
  | Nat.succ m, rest =>
    String.mk (rest.takeWhile (fun c => !isPySpace c)) ::
      pySplitMaxGo m (rest.dropWhile (fun c => !isPySpace c))

def pySplitMax (s : String) (maxsplit : ℕ) : List String :=
  pySplitMaxGo maxsplit s.toList

/-- The observable actions of the add_fish / add_plant handlers, in order:
replies sent to the user and rows inserted into storage.  The success and
warning replies keep their data; exact string formatting is a presentation
detail abstracted here. -/
inductive Effect where
  | reply (text : String)
  | replyOk (species : String) (qty : ℤ)
  | replyProblems (probs : List Problem)
  | insertFish (aquarium : ℕ) (species : String) (qty : ℤ)
  | insertPlant (aquarium : ℕ) (species : String) (qty : ℤ)
deriving DecidableEq

/-- Mirrors the add_fish handler in src/main.py: require an active
aquarium, split the message with maxsplit 2, require three parts and an
integer quantity, check compatibility against the last measurement (empty
dictionary when absent), insert the row, then answer according to the
verdict. -/
def add_fish_core (aqId : Option ℕ) (text : String) (lastMeas : Option Meas) :
    List Effect :=
  match aqId with
  | none => [Effect.reply "Сначала выбери активный аквариум: /list_aquariums"]
  | some aq =>
    let parts := pySplitMax text 2
    if parts.length < 3 then
      [Effect.reply "Использование: /add_fish <вид> <кол-во>"]
    else
      let species := pyStrip (parts.getD 1 "")
      match pyInt? (parts.getD 2 "") with
      | none => [Effect.reply "Количество должно быть целым числом."]
      | some qty =>
        let meas := lastMeas.getD emptyMeas
        let r := check_fish_compat meas species
        Effect.insertFish aq species qty ::
          [if r.1 then Effect.replyOk species qty else Effect.replyProblems r.2]

/-- Mirrors the add_plant handler in src/main.py. -/
def add_plant_core (aqId : Option ℕ) (text : String) (lastMeas : Option Meas) :
    List Effect :=
  match aqId with
  | none => [Effect.reply "Сначала выбери активный аквариум: /list_aquariums"]
  | some aq =>
    let parts := pySplitMax text 2
    if parts.length < 3 then
      [Effect.reply "Использование: /add_plant <вид> <кол-во>"]
    else
      let species := pyStrip (parts.getD 1 "")
      match pyInt? (parts.getD 2 "") with
      | none => [Effect.reply "Количество должно быть целым числом."]
      | some qty =>
        let meas := lastMeas.getD emptyMeas
        let r := check_plant_compat meas species
        Effect.insertPlant aq species qty ::
          [if r.1 then Effect.replyOk species qty else Effect.replyProblems r.2]

/- ----- SessionStateMachine (spec section 4.3) ----- -/

/-- Modelled from the spec: src/main.py contains no SessionStateMachine
(this version of the bot collects a whole measurement from a single
key=value command), so the per-user multi-step conversational controller of
spec section 4.3 is modelled here from the specification text. -/
inductive Flow where
  | idle
  | addAquarium
  | addMeasurement
  | addOrganism
  | deleteAquarium
deriving DecidableEq

/-- Modelled from the spec: each step accepts exactly one semantic value,
an identifier or a number. -/
inductive StepKind where
  | ident
  | numeric
deriving DecidableEq

/-- Modelled from the spec: a value collected into partial_data. -/
inductive FieldValue where
  | num (q : ℚ)
  | text (s : String)
deriving DecidableEq

/-- Modelled from the spec: the ordered steps of each flow, each a field
name with the kind of value it expects (add-measurement order from spec
section 4.3). -/
def flowSteps : Flow → List (String × StepKind)
  | .idle => []
  | .addAquarium => [("name", .ident), ("volume_l", .numeric)]
  | .addMeasurement =>
      [("aquarium_id", .ident), ("ph", .numeric), ("kh", .numeric), ("gh", .numeric),
       ("no2", .numeric), ("no3", .numeric), ("tan", .numeric), ("po4", .numeric),
       ("temperature", .numeric)]
  | .addOrganism => [("species", .ident), ("qty", .numeric)]
  | .deleteAquarium => [("aquarium_id", .ident)]

/-- Modelled from the spec: the ephemeral per-user session state. -/
structure SessionState where
  flow : Flow
  step : ℕ
  partial_data : List (String × FieldValue)
deriving DecidableEq

/-- Modelled from the spec: feeding one inbound message to the state
machine.  A malformed value (non-numeric where a number is expected) is
rejected: the state is returned unchanged and an error prompt is re-issued.
An accepted value is written into partial_data under the step field name
and the step advances; the terminal step finalizes the record, hands it to
the caller and returns to idle. -/
def feed (st : SessionState) (msg : String) :
    SessionState × Option (List (String × FieldValue)) :=
  match (flowSteps st.flow)[st.step]? with
  | none => (st, none)
  | some fk =>
    let accepted : Option FieldValue :=
      match fk.2 with
      | .ident => some (FieldValue.text (pyStrip msg))
      | .numeric => (pyFloat? msg).map FieldValue.num
    match accepted with
    | none => (st, none)
    | some v =>
      let data := st.partial_data ++ [(fk.1, v)]
      if st.step + 1 = (flowSteps st.flow).length then
        (⟨Flow.idle, 0, []⟩, some data)
      else
        ({ st with step := st.step + 1, partial_data := data }, none)

/- ==================== Theorems ==================== -/

lemma nh3_fraction_nonneg (pH temp_c : ℝ) : 0 ≤ nh3_fraction pH temp_c :=
  le_max_left _ _

lemma nh3_fraction_le_one (pH temp_c : ℝ) : nh3_fraction pH temp_c ≤ 1 := by
  unfold nh3_fraction
  exact max_le (by norm_num) (min_le_left _ _)

lemma split_fst (tan pH temp_c : ℝ) :
    (split_tan_to_nh3_nh4 tan pH temp_c).1 = max 0 tan * nh3_fraction pH temp_c := rfl

lemma split_snd (tan pH temp_c : ℝ) :
    (split_tan_to_nh3_nh4 tan pH temp_c).2 =
      max 0 tan - max 0 tan * nh3_fraction pH temp_c := rfl

/-- C1: for every tan ≥ 0 and all ph and temperature_c, the pair (nh3, nh4)
returned by split_tan_to_nh3_nh4 satisfies nh3 + nh4 = tan (exactly, in the
real model, hence within any tolerance) and 0 ≤ nh3 ≤ tan. -/
theorem chem_split_conserves_tan (tan pH temp_c : ℝ) (htan : 0 ≤ tan) :
    (split_tan_to_nh3_nh4 tan pH temp_c).1 + (split_tan_to_nh3_nh4 tan pH temp_c).2 = tan ∧
    0 ≤ (split_tan_to_nh3_nh4 tan pH temp_c).1 ∧
    (split_tan_to_nh3_nh4 tan pH temp_c).1 ≤ tan := by
  have hmax : max 0 tan = tan := max_eq_right htan
  refine ⟨?_, ?_, ?_⟩
  · rw [split_fst, split_snd, hmax]; ring
  · rw [split_fst]
    exact mul_nonneg (le_max_left _ _) (nh3_fraction_nonneg _ _)
  · rw [split_fst, hmax]
    exact mul_le_of_le_one_right htan (nh3_fraction_le_one _ _)

/-- Witness for C1 at tan = 2, pH = 7, temp_c = 25. -/
theorem chem_split_conserves_tan_witness :
    (0 : ℝ) ≤ 2 ∧
    ((split_tan_to_nh3_nh4 2 7 25).1 + (split_tan_to_nh3_nh4 2 7 25).2 = 2 ∧
     0 ≤ (split_tan_to_nh3_nh4 2 7 25).1 ∧ (split_tan_to_nh3_nh4 2 7 25).1 ≤ 2) :=
  ⟨by norm_num, chem_split_conserves_tan 2 7 25 (by norm_num)⟩

/-- On its non-error path nh3_fraction_run computes exactly nh3_fraction. -/
lemma nh3_fraction_run_ok (pH temp_c v : ℝ)
    (h : nh3_fraction_run pH temp_c = Except.ok v) : v = nh3_fraction pH temp_c := by
  simp only [nh3_fraction_run] at h
  split_ifs at h <;> first
  | exact Except.noConfusion h
  | (simp only [Except.ok.injEq] at h
     rw [← h]
     rfl)

/-- C7 counterexample: split_tan_to_nh3_nh4 does fail at finite inputs,
even with tan < 0.  At temperature_c = -273.15 the temperature term
273.15 + temp_c is exactly zero (also in double arithmetic, where x + (-x)
is exact) and the division raises ZeroDivisionError; at
temperature_c = -273.14 the exponent pKa - pH is about 272985, so
pow(10.0, pKa - pH) overflows the double range and raises OverflowError. -/
theorem chem_negative_tan_fails_finite :
    split_tan_to_nh3_nh4_run (-1) 7 (-273.15) = Except.error PyErr.zeroDivision ∧
    split_tan_to_nh3_nh4_run (-1) 7 (-273.14) = Except.error PyErr.overflow := by
  constructor
  · simp only [split_tan_to_nh3_nh4_run, nh3_fraction_run]
    rw [if_pos (by norm_num)]
  · simp only [split_tan_to_nh3_nh4_run, nh3_fraction_run]
    have hne : (273.15 : ℝ) + -273.14 ≠ 0 := by norm_num
    have hover : maxDouble <
        (10 : ℝ) ^ (0.09018 + 2729.92 / ((273.15 : ℝ) + -273.14) - 7) := by
      have h1 : maxDouble < (2 : ℝ) ^ (1024 : ℕ) := by
        unfold maxDouble; norm_num
      have h2 : (2 : ℝ) ^ (1024 : ℕ) ≤ (10 : ℝ) ^ (1024 : ℕ) :=
        pow_le_pow_left₀ (by norm_num) (by norm_num) 1024
      have h3 : (10 : ℝ) ^ (1024 : ℕ) = (10 : ℝ) ^ (((1024 : ℕ) : ℝ)) :=
        (Real.rpow_natCast 10 1024).symm
      have h4 : (10 : ℝ) ^ (((1024 : ℕ) : ℝ)) ≤
          (10 : ℝ) ^ (0.09018 + 2729.92 / ((273.15 : ℝ) + -273.14) - 7) := by
        apply Real.rpow_le_rpow_of_exponent_le (by norm_num)
        norm_num
      calc maxDouble < (2 : ℝ) ^ (1024 : ℕ) := h1
        _ ≤ (10 : ℝ) ^ (1024 : ℕ) := h2
        _ = (10 : ℝ) ^ (((1024 : ℕ) : ℝ)) := h3
        _ ≤ _ := h4
    rw [if_neg hne, if_pos hover]

/-- C7 (amended): for every tan < 0 and all ph and temperature_c at which
the Python arithmetic is defined — the temperature term 273.15 + temp_c is
nonzero (no ZeroDivisionError) and 10 ^ (pKa - ph) stays within double
range (no OverflowError) — split_tan_to_nh3_nh4 does not fail: it clamps
tan to 0 and returns the same result as for tan = 0, namely (0, 0). -/
theorem chem_negative_tan_clamped_guarded (tan pH temp_c : ℝ) (htan : tan < 0)
    (hdiv : (273.15 : ℝ) + temp_c ≠ 0)
    (hover : (10 : ℝ) ^ (0.09018 + 2729.92 / (273.15 + temp_c) - pH) ≤ maxDouble) :
    split_tan_to_nh3_nh4_run tan pH temp_c = split_tan_to_nh3_nh4_run 0 pH temp_c ∧
    split_tan_to_nh3_nh4_run tan pH temp_c = Except.ok (0, 0) := by
  have hrun : nh3_fraction_run pH temp_c = Except.ok
      (max 0 (min 1 (1 / (1 + (10 : ℝ) ^ (0.09018 + 2729.92 / (273.15 + temp_c) - pH))))) := by
    simp only [nh3_fraction_run]
    rw [if_neg hdiv, if_neg (not_lt.mpr hover)]
  have hmax : max 0 tan = 0 := max_eq_left htan.le
  constructor
  · simp only [split_tan_to_nh3_nh4_run, hrun, hmax, max_self]
  · simp only [split_tan_to_nh3_nh4_run, hrun, hmax]
    simp

/-- Witness for the amended C7 at tan = -1, ph = 7, temp_c = 25. -/
theorem chem_negative_tan_clamped_guarded_witness :
    (-1 : ℝ) < 0 ∧ (273.15 : ℝ) + 25 ≠ 0 ∧
    (10 : ℝ) ^ (0.09018 + 2729.92 / ((273.15 : ℝ) + 25) - 7) ≤ maxDouble ∧
    split_tan_to_nh3_nh4_run (-1) 7 25 = Except.ok (0, 0) := by
  have hover : (10 : ℝ) ^ (0.09018 + 2729.92 / ((273.15 : ℝ) + 25) - 7) ≤ maxDouble := by
    have h1 : (10 : ℝ) ^ (0.09018 + 2729.92 / ((273.15 : ℝ) + 25) - 7) ≤
        (10 : ℝ) ^ (((4 : ℕ) : ℝ)) := by
      apply Real.rpow_le_rpow_of_exponent_le (by norm_num)
      norm_num
    have h2 : (10 : ℝ) ^ (((4 : ℕ) : ℝ)) = (10 : ℝ) ^ (4 : ℕ) :=
      Real.rpow_natCast 10 4
    have h3 : (10 : ℝ) ^ (4 : ℕ) ≤ maxDouble := by
      unfold maxDouble; norm_num
    calc (10 : ℝ) ^ (0.09018 + 2729.92 / ((273.15 : ℝ) + 25) - 7)
        ≤ (10 : ℝ) ^ (((4 : ℕ) : ℝ)) := h1
      _ = (10 : ℝ) ^ (4 : ℕ) := h2
      _ ≤ maxDouble := h3
  exact ⟨by norm_num, by norm_num, hover,
    (chem_negative_tan_clamped_guarded (-1) 7 25 (by norm_num) (by norm_num) hover).2⟩

/-- C6: holding temperature_c and tan fixed (tan ≥ 0), the nh3 component
returned by split_tan_to_nh3_nh4 is non-decreasing as ph increases. -/
theorem chem_nh3_monotone_in_ph (tan temp_c ph1 ph2 : ℝ) (htan : 0 ≤ tan)
    (hph : ph1 ≤ ph2) :
    (split_tan_to_nh3_nh4 tan ph1 temp_c).1 ≤ (split_tan_to_nh3_nh4 tan ph2 temp_c).1 := by
  have _ := htan
  rw [split_fst, split_fst]
  refine mul_le_mul_of_nonneg_left ?_ (le_max_left _ _)
  unfold nh3_fraction
  refine max_le_max le_rfl (min_le_min le_rfl ?_)
  set pKa : ℝ := 0.09018 + 2729.92 / (273.15 + temp_c) with hpKa
  have hexp : (10 : ℝ) ^ (pKa - ph2) ≤ (10 : ℝ) ^ (pKa - ph1) :=
    Real.rpow_le_rpow_of_exponent_le (by norm_num) (by linarith)
  have hpos : (0 : ℝ) < (10 : ℝ) ^ (pKa - ph2) :=
    Real.rpow_pos_of_pos (by norm_num) _
  exact one_div_le_one_div_of_le (by linarith) (by linarith)

/-- Witness for C6 at tan = 2, temp_c = 25, ph from 6 to 8. -/
theorem chem_nh3_monotone_in_ph_witness :
    (0 : ℝ) ≤ 2 ∧ (6 : ℝ) ≤ 8 ∧
    (split_tan_to_nh3_nh4 2 6 25).1 ≤ (split_tan_to_nh3_nh4 2 8 25).1 :=
  ⟨by norm_num, by norm_num, chem_nh3_monotone_in_ph 2 25 6 8 (by norm_num) (by norm_num)⟩

lemma check_fish_known (meas : Meas) (species : String) (sp : FishSpec)
    (h : FISH_GUIDE.lookup (pyLower species) = some sp) :
    check_fish_compat meas species =
      ((fishProblems meas sp).isEmpty, fishProblems meas sp) := by
  unfold check_fish_compat fishProblems rangeDim ceilDim
  rw [h]
  cases meas.ph <;> cases meas.gh <;> cases meas.temperature_c <;>
    cases meas.no2 <;> cases meas.nh3 <;>
    simp only [] <;> first
    | (split_ifs <;> simp)
    | simp

lemma check_plant_known (meas : Meas) (species : String) (sp : PlantSpec)
    (h : PLANT_GUIDE.lookup (pyLower species) = some sp) :
    check_plant_compat meas species =
      ((plantProblems meas sp).isEmpty, plantProblems meas sp) := by
  unfold check_plant_compat plantProblems rangeDim
  rw [h]
  cases meas.ph <;> cases meas.gh <;> cases meas.temperature_c <;>
    cases meas.no3 <;> cases meas.po4 <;>
    simp only [] <;> first
    | (split_ifs <;> simp)
    | simp

/-- C2: for a species found (case-insensitively) in the fish or plant guide,
the compatibility check evaluates each defined tolerance dimension
independently: the message list is the concatenation of the per-dimension
lists, where a missing measurement field contributes no message and each
out-of-range dimension contributes exactly one message carrying the violated
bound; and the verdict is true iff the message list is empty. -/
theorem compat_dims_independent (meas : Meas) (fishName plantName : String)
    (fsp : FishSpec) (psp : PlantSpec)
    (hf : FISH_GUIDE.lookup (pyLower fishName) = some fsp)
    (hp : PLANT_GUIDE.lookup (pyLower plantName) = some psp) :
    check_fish_compat meas fishName =
      ((fishProblems meas fsp).isEmpty, fishProblems meas fsp) ∧
    ((check_fish_compat meas fishName).1 = true ↔
      (check_fish_compat meas fishName).2 = []) ∧
    check_plant_compat meas plantName =
      ((plantProblems meas psp).isEmpty, plantProblems meas psp) ∧
    ((check_plant_compat meas plantName).1 = true ↔
      (check_plant_compat meas plantName).2 = []) := by
  have h1 := check_fish_known meas fishName fsp hf
  have h2 := check_plant_known meas plantName psp hp
  refine ⟨h1, ?_, h2, ?_⟩
  · rw [h1]; simp [List.isEmpty_iff]
  · rw [h2]; simp [List.isEmpty_iff]

/-- Witness for C2: the fish "неон" and the plant "анубиас" with a concrete
measurement that violates the pH range of both. -/
theorem compat_dims_independent_witness :
    FISH_GUIDE.lookup (pyLower "Неон") = some ⟨5.0, 7.2, 1, 10, 22, 26, 0.05, 0.01⟩ ∧
    PLANT_GUIDE.lookup (pyLower "Анубиас") = some ⟨6.0, 8.0, 3, 15, 22, 28, 5, 30, 0.2, 2.0⟩ ∧
    (check_fish_compat { ph := some 8.5, gh := some 15 } "Неон" =
      ((fishProblems { ph := some 8.5, gh := some 15 }
          ⟨5.0, 7.2, 1, 10, 22, 26, 0.05, 0.01⟩).isEmpty,
        fishProblems { ph := some 8.5, gh := some 15 }
          ⟨5.0, 7.2, 1, 10, 22, 26, 0.05, 0.01⟩) ∧
     ((check_fish_compat { ph := some 8.5, gh := some 15 } "Неон").1 = true ↔
       (check_fish_compat { ph := some 8.5, gh := some 15 } "Неон").2 = []) ∧
     check_plant_compat { ph := some 8.5, gh := some 15 } "Анубиас" =
      ((plantProblems { ph := some 8.5, gh := some 15 }
          ⟨6.0, 8.0, 3, 15, 22, 28, 5, 30, 0.2, 2.0⟩).isEmpty,
        plantProblems { ph := some 8.5, gh := some 15 }
          ⟨6.0, 8.0, 3, 15, 22, 28, 5, 30, 0.2, 2.0⟩) ∧
     ((check_plant_compat { ph := some 8.5, gh := some 15 } "Анубиас").1 = true ↔
       (check_plant_compat { ph := some 8.5, gh := some 15 } "Анубиас").2 = [])) :=
  ⟨by rfl, by rfl,
   compat_dims_independent { ph := some 8.5, gh := some 15 } "Неон" "Анубиас"
     ⟨5.0, 7.2, 1, 10, 22, 26, 0.05, 0.01⟩ ⟨6.0, 8.0, 3, 15, 22, 28, 5, 30, 0.2, 2.0⟩
     (by rfl) (by rfl)⟩

/-- C3: a species absent (case-insensitively) from the fish or plant guide is
accepted: the check returns compatible = true together with exactly one
advisory message stating the species is unverified. -/
theorem compat_unknown_species_fail_open (meas : Meas) (fishName plantName : String)
    (hf : FISH_GUIDE.lookup (pyLower fishName) = none)
    (hp : PLANT_GUIDE.lookup (pyLower plantName) = none) :
    check_fish_compat meas fishName = (true, [Problem.unverified fishName]) ∧
    check_plant_compat meas plantName = (true, [Problem.unverified plantName]) := by
  constructor
  · unfold check_fish_compat; rw [hf]
  · unfold check_plant_compat; rw [hp]

/-- Witness for C3 at the unknown species "заврик". -/
theorem compat_unknown_species_fail_open_witness :
    FISH_GUIDE.lookup (pyLower "заврик") = none ∧
    PLANT_GUIDE.lookup (pyLower "заврик") = none ∧
    (check_fish_compat emptyMeas "заврик" = (true, [Problem.unverified "заврик"]) ∧
     check_plant_compat emptyMeas "заврик" = (true, [Problem.unverified "заврик"])) :=
  ⟨by rfl, by rfl,
   compat_unknown_species_fail_open emptyMeas "заврик" "заврик" (by rfl) (by rfl)⟩

/-- C5: for a species that has a guide entry, when the aquarium has no
recorded measurement (the handlers substitute the empty dictionary), every
dimension is skipped, so the verdict is compatible = true: the addition is
treated as unverifiable and fails open. -/
theorem compat_no_measurement_fail_open (fishName plantName : String)
    (fsp : FishSpec) (psp : PlantSpec)
    (hf : FISH_GUIDE.lookup (pyLower fishName) = some fsp)
    (hp : PLANT_GUIDE.lookup (pyLower plantName) = some psp) :
    check_fish_compat emptyMeas fishName = (true, []) ∧
    check_plant_compat emptyMeas plantName = (true, []) := by
  constructor
  · rw [check_fish_known emptyMeas fishName fsp hf]; rfl
  · rw [check_plant_known emptyMeas plantName psp hp]; rfl

/-- Witness for C5 at the fish "неон" and the plant "элодея". -/
theorem compat_no_measurement_fail_open_witness :
    FISH_GUIDE.lookup (pyLower "неон") = some ⟨5.0, 7.2, 1, 10, 22, 26, 0.05, 0.01⟩ ∧
    PLANT_GUIDE.lookup (pyLower "элодея") = some ⟨6.5, 8.0, 4, 18, 18, 28, 1, 20, 0.1, 1.5⟩ ∧
    (check_fish_compat emptyMeas "неон" = (true, []) ∧
     check_plant_compat emptyMeas "элодея" = (true, [])) :=
  ⟨by rfl, by rfl,
   compat_no_measurement_fail_open "неон" "элодея"
     ⟨5.0, 7.2, 1, 10, 22, 26, 0.05, 0.01⟩ ⟨6.5, 8.0, 4, 18, 18, 28, 1, 20, 0.1, 1.5⟩
     (by rfl) (by rfl)⟩

lemma parse_fold_isSome (l : List String) (acc : String → Option ℚ) (k : String) :
    (∃ q, (l.foldl kvStep acc) k = some q) ↔
      (∃ chunk ∈ l, ∃ q, parseChunk chunk = some (k, q)) ∨ (∃ q, acc k = some q) := by
  induction l generalizing acc with
  | nil => simp
  | cons c l ih =>
    rw [List.foldl_cons, ih]
    simp only [List.mem_cons, exists_eq_or_imp]
    cases hc : parseChunk c with
    | none => simp [kvStep, hc]
    | some kq =>
      obtain ⟨k2, q2⟩ := kq
      by_cases hk : k = k2
      · subst hk
        simp [kvStep, hc, kvUpdate]
      · simp [kvStep, hc, kvUpdate, hk, Ne.symm hk, or_assoc]

/-- C10: parse_kv_args is total by construction (every malformed chunk is
skipped, never an error), and it binds a key iff some whitespace-separated
chunk of the input is a key=value pair whose value, stripped and with
commas replaced by points, parses as a float, the bound key being the
stripped lowercased key of such a chunk; every other chunk is silently
dropped. -/
theorem parse_kv_args_domain (s k : String) :
    (∃ q, parse_kv_args s k = some q) ↔
      ∃ chunk ∈ pyChunks s, ∃ q, parseChunk chunk = some (k, q) := by
  unfold parse_kv_args
  rw [parse_fold_isSome]
  simp

/-- C4 (code bug witness): on the parsed input of the command
"/add_measure tan=1 ph=7 t=0" the fields tan, ph and temperature (key t)
are all present, yet the stored row has no derived nh3/nh4 — and even a
missing temperature_c — because the Python or-chain
kv.get("t") or kv.get("temp") or ... treats the float 0.0 as falsy. -/
theorem add_measure_t_zero_bug :
    parse_kv_args "/add_measure tan=1 ph=7 t=0" "tan" = some 1 ∧
    parse_kv_args "/add_measure tan=1 ph=7 t=0" "ph" = some 7 ∧
    parse_kv_args "/add_measure tan=1 ph=7 t=0" "t" = some 0 ∧
    (add_measure_core (parse_kv_args "/add_measure tan=1 ph=7 t=0")).nh3 = none ∧
    (add_measure_core (parse_kv_args "/add_measure tan=1 ph=7 t=0")).nh4 = none ∧
    (add_measure_core (parse_kv_args "/add_measure tan=1 ph=7 t=0")).temperature_c = none := by
  refine ⟨?_, ?_, ?_, ?_, ?_, ?_⟩ <;> rfl

/-- C8: in the add-fish and add-plant handlers, once an active aquarium is
set, the message has three parts and the quantity parses as an integer, the
organism row is inserted whatever the compatibility verdict is: the insert
effect is emitted for every possible last measurement, on the compatible
and the incompatible branch alike. -/
theorem handlers_insert_regardless_of_verdict (aq : ℕ) (textF textP : String)
    (lastMeas : Option Meas) (qtyF qtyP : ℤ)
    (hF : 3 ≤ (pySplitMax textF 2).length)
    (hqF : pyInt? ((pySplitMax textF 2).getD 2 "") = some qtyF)
    (hP : 3 ≤ (pySplitMax textP 2).length)
    (hqP : pyInt? ((pySplitMax textP 2).getD 2 "") = some qtyP) :
    Effect.insertFish aq (pyStrip ((pySplitMax textF 2).getD 1 "")) qtyF ∈
      add_fish_core (some aq) textF lastMeas ∧
    Effect.insertPlant aq (pyStrip ((pySplitMax textP 2).getD 1 "")) qtyP ∈
      add_plant_core (some aq) textP lastMeas := by
  simp only [List.getD_eq_getElem?_getD] at hqF hqP ⊢
  constructor
  · simp only [add_fish_core]
    rw [if_neg (by omega)]
    simp [hqF]
  · simp only [add_plant_core]
    rw [if_neg (by omega)]
    simp [hqP]

/-- Witness for C8: adding 5 guppies and 3 anubias to aquarium 1 with no
measurement recorded. -/
theorem handlers_insert_regardless_of_verdict_witness :
    3 ≤ (pySplitMax "/add_fish гуппи 5" 2).length ∧
    pyInt? ((pySplitMax "/add_fish гуппи 5" 2).getD 2 "") = some 5 ∧
    3 ≤ (pySplitMax "/add_plant анубиас 3" 2).length ∧
    pyInt? ((pySplitMax "/add_plant анубиас 3" 2).getD 2 "") = some 3 ∧
    (Effect.insertFish 1 (pyStrip ((pySplitMax "/add_fish гуппи 5" 2).getD 1 "")) 5 ∈
       add_fish_core (some 1) "/add_fish гуппи 5" none ∧
     Effect.insertPlant 1 (pyStrip ((pySplitMax "/add_plant анубиас 3" 2).getD 1 "")) 3 ∈
       add_plant_core (some 1) "/add_plant анубиас 3" none) :=
  ⟨by decide, by rfl, by decide, by rfl,
   handlers_insert_regardless_of_verdict 1 "/add_fish гуппи 5" "/add_plant анубиас 3"
     none 5 3 (by decide) (by rfl) (by decide) (by rfl)⟩

/-- C9: in the session state machine, at every step of every flow that
expects a numeric value, feeding a non-numeric message leaves the state
unchanged: the step and partial_data are exactly as before. -/
theorem session_nonnumeric_keeps_state (st : SessionState) (msg : String)
    (field : String)
    (hstep : (flowSteps st.flow)[st.step]? = some (field, StepKind.numeric))
    (hmsg : pyFloat? msg = none) :
    (feed st msg).1 = st ∧ (feed st msg).1.step = st.step ∧
    (feed st msg).1.partial_data = st.partial_data := by
  have h : (feed st msg).1 = st := by
    unfold feed
    rw [hstep]
    simp [hmsg]
  exact ⟨h, by rw [h], by rw [h]⟩

/-- Witness for C9: the add-measurement flow waiting for ph, fed "abc". -/
theorem session_nonnumeric_keeps_state_witness :
    (flowSteps Flow.addMeasurement)[1]? = some ("ph", StepKind.numeric) ∧
    pyFloat? "abc" = none ∧
    (feed ⟨Flow.addMeasurement, 1, [("aquarium_id", FieldValue.text "12")]⟩ "abc").1
      = ⟨Flow.addMeasurement, 1, [("aquarium_id", FieldValue.text "12")]⟩ :=
  ⟨by rfl, by rfl,
   (session_nonnumeric_keeps_state
     ⟨Flow.addMeasurement, 1, [("aquarium_id", FieldValue.text "12")]⟩
     "abc" "ph" (by rfl) (by rfl)).1⟩

end Aquaballance
